import Mathlib

/-
  Verification development for the `GSamNetwork` orchestration class in
  `src/groundino_samnet/gsam_combined.py` of the DiagAssistAI repository.

  Shallow embedding conventions:
  * Python exceptions become the `PyError` sum type; a fallible computation
    returns `Except PyError α`.
  * The external pretrained models (GroundingDINO `predict`, the SAM predictor
    and its `ResizeLongestSide` transform) are opaque collaborators per the
    spec; they appear as oracle parameters (`DinoOracle`, `SamOracle`).
  * Helper functions that live in `groundino_samnet/utils.py` — a file of this
    repository that is not part of the provided source — are modelled from the
    spec and carry a doc comment starting with "Modelled from the spec:".
    Only the four names actually imported on source lines 397/400
    (`load_trans_image`, `change_image_instance`, `process_box_batch`,
    `process_masks`) are modelled this way; the calls to `postprocess_box`
    (line 156) and `postprocess_masks` (line 219) reference names that are
    never imported nor defined in the module, so those call sites raise
    `NameError` and no body is modelled for them.
  * Arrays are nested lists; machine floats are modelled as rationals (the
    orchestration code performs only exact arithmetic on coordinates).
-/

/-- Python exception outcomes observable from the orchestration code. -/
inductive PyError where
  | typeError (msg : String)
  | valueError (msg : String)
  | attributeError (msg : String)
  | unboundLocalError (msg : String)
  | indexError (msg : String)
  | nameError (msg : String)
  | runtimeError (msg : String)
deriving DecidableEq, Repr

/-- Modelled from the spec: the canonical image array produced by
`change_image_instance` in `groundino_samnet/utils.py` (not part of the
provided source).  Spec section 3: an image is "a 3-dimensional pixel array
(height × width × channel); accepted in multiple representations, normalized
to one canonical array form before use."  The orchestration code reads only
the array geometry (`shape`); pixel contents flow solely into the opaque
external models, so the model keeps the geometry. -/
structure NpImage where
  height : Nat
  width : Nat
  channels : Nat
deriving DecidableEq, Repr

/-- numpy `shape` of the canonical height × width × channel array. -/
def NpImage.shape (img : NpImage) : List Nat :=
  [img.height, img.width, img.channels]

/-- Modelled from the spec: `change_image_instance` from
`groundino_samnet/utils.py` normalizes any accepted representation to the
canonical array; on the canonical geometry it is the identity. -/
def change_image_instance (img : NpImage) : NpImage := img

/-- A box of four float coordinates, either (cx, cy, w, h) normalized or
(x0, y0, x1, y1) absolute, depending on pipeline position. -/
structure Box4 where
  c0 : ℚ
  c1 : ℚ
  c2 : ℚ
  c3 : ℚ
deriving DecidableEq, Repr

/-- `groundingdino.util.box_ops.box_cxcywh_to_xyxy`: center-size to corners. -/
def box_cxcywh_to_xyxy (b : Box4) : Box4 :=
  ⟨b.c0 - b.c2 / 2, b.c1 - b.c3 / 2, b.c0 + b.c2 / 2, b.c1 + b.c3 / 2⟩

/-- Elementwise product with a 4-vector, i.e. `boxes * torch.Tensor([s0,s1,s2,s3])`. -/
def scaleBox (b : Box4) (s0 s1 s2 s3 : ℚ) : Box4 :=
  ⟨b.c0 * s0, b.c1 * s1, b.c2 * s2, b.c3 * s3⟩

/-- A point prompt coordinate. -/
abbrev Point := ℚ × ℚ

/-- Modelled from the spec: the family-selector names exported by
`segment_anything.config.SAM_NAMES_MODELS` (the vendored `segment_anything`
package is an external collaborator, not part of the provided source).
Spec section 6: "a required selector choosing between two segmentation-model
families"; the two families in the source are SAM1 and SAM2. -/
def SAM_NAMES_MODELS : List String := ["SAM1", "SAM2"]

/-- Attribute names that class `GSamNetwork` defines as getter-only
properties: `device` is declared with `@property` (source lines 368-370) and
no setter is ever defined. -/
def getterOnlyProperties : List String := ["device"]

/-- Python instance attribute assignment semantics: a class-level property
without a setter is a data descriptor, so `self.name = value` raises
`AttributeError`; any other name is stored on the instance and succeeds. -/
def setInstanceAttr (name : String) : Except PyError Unit :=
  if name ∈ getterOnlyProperties then
    .error (.attributeError "property device of GSamNetwork object has no setter")
  else
    .ok ()

/-- Outcome of running `GSamNetwork.__init__`: the raised exception (if any)
and the external model checkpoints that were actually loaded. -/
structure InitOutcome where
  result : Except PyError Unit
  modelsLoaded : List String
deriving Repr

/-- `GSamNetwork.__init__(SAM, SAM_MODEL)` (source lines 18-66).  The
`isinstance(SAM, str)` guard is always satisfied in this typed embedding.
After the selector validation, lines 25-28 assign plain instance attributes
(no class property shadows them), and line 29 executes
`self.device = torch.device(...)`, which hits the getter-only `device`
property and raises before `__Build_GroundingDINO` on line 32 runs.  Hub
downloads and checkpoint loads in the remainder are opaque external calls,
modelled as succeeding and recorded in `modelsLoaded`; that region is
unreachable. -/
def gsam_init (SAM : String) (SAM_MODEL : Option String) : InitOutcome :=
  if SAM ∉ SAM_NAMES_MODELS then
    ⟨.error (.valueError "The specified SAM model does not exist. Please select a valid model from the following options."), []⟩
  else
    match setInstanceAttr "device" with
    | .error e => ⟨.error e, []⟩
    | .ok _ =>
      -- unreachable continuation: lines 31-66 of the source
      let loaded := ["GroundingDINO"]
      if SAM = "SAM1" then
        ⟨.ok (), loaded ++ [SAM_MODEL.getD "vit_h"]⟩
      else
        ⟨.ok (), loaded ++ [SAM_MODEL.getD "large"]⟩

/-- Pairing-violation message raised when point_coords comes without
point_labels (source lines 245 and 383; quotes elided). -/
def pairMsgCoords : String :=
  "If points_coords is provided, points_labels must also be provided, and vice versa."

/-- Pairing-violation message raised when point_labels comes without
point_coords (source lines 247 and 385; quotes elided). -/
def pairMsgLabels : String :=
  "If points_labels is provided, points_coords must also be provided, and vice versa."

/-- Oracle bundling the external SAM predictor capabilities used by the
segmenter adapter: `ResizeLongestSide.apply_boxes_torch`,
`ResizeLongestSide.apply_coords_torch`, and `SamPredictor.predict_torch`
(each mask instance is returned as a 1 × H × W block). -/
structure SamOracle where
  applyBoxes : List Box4 → Nat × Nat → List Box4
  applyCoords : List Point → Nat × Nat → List Point
  predictTorch : List Box4 → List Point → List ℚ →
    Except PyError (List (List (List (List Bool))))

/-- The boxes branch of `GSamNetwork.__prep_prompts` (source lines 374-380).
The branch computes `np.clip(boxes[0][0], 0, 1)` (an `IndexError` on an
empty boxes tensor) and assigns the local `transformed_boxes` only when the
clip leaves the first coordinate unchanged (conversion to absolute corners
scaled by `torch.Tensor([W, H, W, H])`, then the segmenter transform); when
the clip changes it, the local is never assigned, which the model records as
the outer `none` of an `Option (Option _)`. -/
def transformed_boxes_status (o : SamOracle) (W H : Nat) :
    Option (List Box4) → Except PyError (Option (Option (List Box4)))
  | some [] => .error (.indexError "index 0 is out of bounds for dimension 0 with size 0")
  | some (b :: bs) =>
    let clip_valor := max 0 (min 1 b.c0)
    if clip_valor = b.c0 then
      let scaled := ((b :: bs).map box_cxcywh_to_xyxy).map
        (fun x => scaleBox x (W : ℚ) (H : ℚ) (W : ℚ) (H : ℚ))
      .ok (some (some (o.applyBoxes scaled (W, H))))
    else
      .ok none
  | none => .ok (some none)

/-- `GSamNetwork.__prep_prompts(boxes, points_coords, points_labels, dims)`
(source lines 372-392).  `dims` is `image_array.shape[:2]`, i.e.
`(height, width)` of the canonical array; the source binds `W, H = dims`.
An unassigned local `transformed_boxes` (outer `none` of the boxes status)
surfaces as `UnboundLocalError` at the final `return`.  The point pairing
checks mirror lines 382-385. -/
def prep_prompts (o : SamOracle) (boxes : Option (List Box4))
    (points_coords : Option (List Point)) (points_labels : Option (List ℚ))
    (dims : Nat × Nat) :
    Except PyError (Option (List Box4) × Option (List Point) × Option (List ℚ)) :=
  let W := dims.1
  let H := dims.2
  match transformed_boxes_status o W H boxes with
  | .error e => .error e
  | .ok tb? =>
    match points_coords, points_labels with
    | some _, none => .error (.valueError pairMsgCoords)
    | none, some _ => .error (.valueError pairMsgLabels)
    | some p, some l =>
      match tb? with
      | none => .error (.unboundLocalError "local variable transformed_boxes referenced before assignment")
      | some tb => .ok (tb, some (o.applyCoords p (W, H)), some l)
    | none, none =>
      match tb? with
      | none => .error (.unboundLocalError "local variable transformed_boxes referenced before assignment")
      | some tb => .ok (tb, none, none)

/-- A 2-dimensional boolean array (H × W). -/
abbrev Mask2 := List (List Bool)

/-- A 3-dimensional boolean array; used both for the 1 × H × W per-instance
blocks produced by `predict_torch` and for the H × W × 1 final output. -/
abbrev Mask3 := List Mask2

/-- Message raised by `None.to(device)`. -/
def noneToMsg : String := "NoneType object has no attribute to"

/-- Message of the `NameError` raised at source line 156: `postprocess_box`
is not among the names imported from `.utils` (lines 397 and 400 import only
`load_trans_image`, `change_image_instance`, `process_box_batch` and
`process_masks`), nor defined in the module, so the global name lookup fails
at call time. -/
def postprocessBoxMsg : String := "name postprocess_box is not defined"

/-- Message of the `NameError` raised at source line 219: `postprocess_masks`
is likewise never imported (only `process_masks` is) nor defined. -/
def postprocessMasksMsg : String := "name postprocess_masks is not defined"

/-- Outcome of `GSamNetwork.predict_SAM1`: the returned mask or raised
exception, whether the active image context of the predictor is still held when
the call exits, and whether the external mask prediction was ever invoked. -/
structure SamCallResult where
  result : Except PyError Mask3
  ctxHeldAtExit : Bool
  predictInvoked : Bool

/-- `GSamNetwork.predict_SAM1(image, boxes, points_coords, points_labels)`
(source lines 187-223).  Order of effects follows the source: prompt
preparation (line 207) precedes `set_image` (line 212); the keyword
arguments of `predict_torch` are evaluated left to right, so a `None`
prompt fails at `.to(self.SAM1.device)` with `AttributeError` after the
image context was acquired; `reset_image` (line 218) runs only after a
successful `predict_torch`, and then line 219 names `postprocess_masks`,
which the module never imports, so every call surviving `predict_torch`
raises `NameError` after the release and the OR/permute aggregation of
lines 219-222 is dead code: the function has no successful exit. -/
def predict_SAM1 (o : SamOracle) (image : NpImage) (boxes : Option (List Box4))
    (points_coords : Option (List Point)) (points_labels : Option (List ℚ)) :
    SamCallResult :=
  let image_array := change_image_instance image
  -- image_array.shape[:2] of the canonical height × width × channel array
  let dims := (image_array.height, image_array.width)
  match prep_prompts o boxes points_coords points_labels dims with
  | .error e => ⟨.error e, false, false⟩
  | .ok (transformed_boxes, transformed_points, labels) =>
    -- self.SAM1.set_image(image_array): context acquired here
    match transformed_points with
    | none => ⟨.error (.attributeError noneToMsg), true, false⟩
    | some tp =>
      match labels with
      | none => ⟨.error (.attributeError noneToMsg), true, false⟩
      | some ls =>
        match transformed_boxes with
        | none => ⟨.error (.attributeError noneToMsg), true, false⟩
        | some tb =>
          match o.predictTorch tb tp ls with
          | .error e => ⟨.error e, true, true⟩
          | .ok _masks =>
            -- self.SAM1.reset_image() (line 218): context released here;
            -- then line 219 raises NameError on the unbound postprocess_masks
            ⟨.error (.nameError postprocessMasksMsg), false, true⟩

/-- Length-mismatch message of `predict_SAM1_batch` (source line 256; quotes
elided). -/
def lenMsg : String :=
  "The lengths of images, boxes, points_coords, and points_labels must match."

/-- Arity error raised by the nested `process_image` of `predict_SAM1_batch`:
line 274 calls `self.__prep_prompts(box, point_coord, point_label)` with
three arguments although `__prep_prompts` requires four (`dims` is missing),
so Python raises `TypeError` before the helper body runs. -/
def prepDimsMsg : String :=
  "prep_prompts missing 1 required positional argument: dims"

/-- `GSamNetwork.predict_SAM1_batch(images, boxes, points_coords,
points_labels)` (source lines 225-288): pairing guards (lines 244-247),
defaulting of absent lists to `[None] * len(images)` (lines 249-253), the
length equality check (lines 255-256), then the per-image comprehension.
Its first iteration always raises the `TypeError` above, so the loop body
beyond that call is unreachable; an empty batch returns `[]`. -/
def predict_SAM1_batch (images : List NpImage)
    (boxes : Option (List (Option (List Box4))))
    (points_coords : Option (List (Option (List Point))))
    (points_labels : Option (List (Option (List ℚ)))) :
    Except PyError (List Mask3) :=
  if points_coords.isSome && points_labels.isNone then
    .error (.valueError pairMsgCoords)
  else if points_labels.isSome && points_coords.isNone then
    .error (.valueError pairMsgLabels)
  else
    let boxes' := boxes.getD (List.replicate images.length none)
    let pcs := match points_coords with
      | none => List.replicate images.length none
      | some p => p
    let pls := match points_coords with
      | none => List.replicate images.length (none : Option (List ℚ))
      | some _ => points_labels.getD []
    if ¬(images.length = boxes'.length ∧ boxes'.length = pcs.length ∧
          pcs.length = pls.length) then
      .error (.valueError lenMsg)
    else
      match images with
      | [] => .ok []
      | _ :: _ => .error (.typeError prepDimsMsg)

/-- Oracle for the external GroundingDINO capability
`predict(model, image, caption, box_threshold, text_threshold, device)`;
the transformed-image input produced by `load_trans_image` (a helper of
`groundino_samnet/utils.py`, not part of the provided source) is folded into
the image argument of the oracle. -/
structure DinoOracle where
  predict : NpImage → String → ℚ → ℚ → List Box4 × List ℚ × List String

/-- Lines 152-154 of the source: when `Normalize` is true,
`W, H = image_array.shape[:2]` is followed by
`boxes = box_ops.box_cxcywh_to_xyxy(boxes) * torch.Tensor([W, H, W, H])`.
The canonical array is height × width × channel, so `W` is bound to the
image height and `H` to the image width. -/
def normalize_boxes (image_array : NpImage) (boxes : List Box4) : List Box4 :=
  let W := image_array.height
  let H := image_array.width
  boxes.map (fun b => scaleBox (box_cxcywh_to_xyxy b) (W : ℚ) (H : ℚ) (W : ℚ) (H : ℚ))

/-- `GSamNetwork.predict_dino(image, text_prompt, box_threshold,
text_threshold, Normalize)` (source lines 123-157).  The external detector
runs, the `Normalize` branch (lines 152-154) rescales its boxes, and then
line 156 calls `postprocess_box` — a name the module never imports (lines
397/400) nor defines — so every call raises `NameError` there and the
function never returns its triple. -/
def predict_dino (dino : DinoOracle) (image : NpImage)
    (text_prompt : String) (box_threshold text_threshold : ℚ)
    (normalize : Bool) :
    Except PyError (List Box4 × List ℚ × List String) :=
  let image_array := change_image_instance image
  let (boxes, _logits, _phrases) :=
    dino.predict image text_prompt box_threshold text_threshold
  let _boxes := if normalize then normalize_boxes image_array boxes else boxes
  .error (.nameError postprocessBoxMsg)

/-- Exception-propagating eager map: `list(map(...))` evaluates the lambda
per element in order and the first exception propagates out. -/
def mapExcept {α β : Type} (f : α → Except PyError β) : List α → Except PyError (List β)
  | [] => .ok []
  | x :: xs =>
    match f x with
    | .error e => .error e
    | .ok y =>
      match mapExcept f xs with
      | .error e => .error e
      | .ok ys => .ok (y :: ys)

/-- `GSamNetwork.predict_dino_batch(images, ...)` (source lines 159-185):
maps `predict_dino` over the images (the first per-image exception
propagates), then executes `boxes, logits, phrases = zip(*results)`.  For a
nonempty result list this unpacks into the three per-field sequences; for an
empty one, `zip()` yields nothing and the 3-name unpacking raises
`ValueError`. -/
def predict_dino_batch (dino : DinoOracle)
    (images : List NpImage) (text_prompt : String)
    (box_threshold text_threshold : ℚ) (normalize : Bool) :
    Except PyError (List (List Box4) × List (List ℚ) × List (List String)) :=
  match mapExcept (fun image =>
      predict_dino dino image text_prompt box_threshold text_threshold
        normalize) images with
  | .error e => .error e
  | .ok [] => .error (.valueError "not enough values to unpack, expected 3, got 0")
  | .ok results =>
    .ok (results.map (fun r => r.1), results.map (fun r => r.2.1),
         results.map (fun r => r.2.2))

/-- Modelled from the spec: the score filter of spec section 4.1,
`filter_boxes(boxes, scores, phrases, score_threshold)`: "keeps only entries
with score ≥ threshold, preserving index alignment". -/
def filter_boxes (boxes : List Box4) (logits : List ℚ) (phrases : List String)
    (score_threshold : ℚ) : List Box4 × List ℚ × List String :=
  let kept := (boxes.zip (logits.zip phrases)).filter (fun x => score_threshold ≤ x.2.1)
  (kept.map (fun x => x.1), kept.map (fun x => x.2.1), kept.map (fun x => x.2.2))

/-- Modelled from the spec: `process_box_batch` is one of the four names
imported from `groundino_samnet/utils.py` (source lines 397/400), but its
body is not part of the provided source.  Spec section 4.4: "applies a
second, coarser score filter (`process_box_threshold`) plus any auxiliary
box post-processing (e.g., deduplication by overlap — policy left to the
box-filter utility)".  The score filter is modelled per batch element; the
unspecified auxiliary policy is omitted, and the image-shape argument of the
call site, which the spec gives no role in the score filter, is dropped. -/
def process_box_batch (boxes : List (List Box4)) (logits : List (List ℚ))
    (phrases : List (List String)) (box_threshold : ℚ) :
    List (List Box4) × List (List ℚ) × List (List String) :=
  let filtered := (boxes.zip (logits.zip phrases)).map
    (fun x => filter_boxes x.1 x.2.1 x.2.2 box_threshold)
  (filtered.map (fun x => x.1), filtered.map (fun x => x.2.1),
   filtered.map (fun x => x.2.2))

/-- `GSamNetwork.predict_batch(image, text_prompt, box_threshold,
process_box_threshold, text_threshold, mode_predict)` (source lines
292-319).  The `predict_dino` call on line 300 always raises the line-156
`NameError`, which propagates, so the remainder of the body is unreachable;
it is modelled anyway: the second box filter, then the
`mode_predict == "box_predict"` branch looking up
`self.predict_sam_with_boxes` (an attribute the class never defines,
`AttributeError`), while every other mode skips the branch and the final
`return` references the never-assigned local `masks`
(`UnboundLocalError`). -/
def predict_batch (dino : DinoOracle) (image : NpImage)
    (text_prompt : String) (box_threshold process_box_threshold
    text_threshold : ℚ) (mode_predict : String) :
    Except PyError ((List (List Box4)) × (List (List ℚ)) × (List (List String)) × Mask3) :=
  match predict_dino dino image text_prompt box_threshold text_threshold false with
  | .error e => .error e
  | .ok (boxes, logits, phrases) =>
    -- unreachable continuation: lines 304-319 of the source
    let _shape := (change_image_instance image).shape
    let (_new_boxes, _new_logits, _new_phrases) :=
      process_box_batch [boxes] [logits] [phrases] process_box_threshold
    if mode_predict = "box_predict" then
      .error (.attributeError "GSamNetwork object has no attribute predict_sam_with_boxes")
    else
      .error (.unboundLocalError "local variable masks referenced before assignment")

/-- Concrete SAM oracle whose coordinate transforms are the identity and
whose prediction returns one 1 × 2 × 2 mask block with two true pixels. -/
def samOracleId : SamOracle :=
  ⟨fun bs _ => bs, fun ps _ => ps,
   fun _ _ _ => .ok [[[[true, false], [false, true]]]]⟩

/-- Concrete SAM oracle whose mask prediction fails. -/
def samOracleFail : SamOracle :=
  ⟨fun bs _ => bs, fun ps _ => ps,
   fun _ _ _ => .error (.runtimeError "mask prediction failed")⟩

/-- Concrete detector oracle reporting one centered half-size box with full
confidence. -/
def dinoOracleOne : DinoOracle :=
  ⟨fun _ _ _ _ => ([⟨1/2, 1/2, 1/2, 1/2⟩], [1], ["dog"])⟩

/-- A 2 × 2 RGB image. -/
def img22 : NpImage := ⟨2, 2, 3⟩

/-- A 2 × 3 RGB image (height 2, width 3). -/
def img23 : NpImage := ⟨2, 3, 3⟩

/-- A 4 × 4 RGB image. -/
def img44 : NpImage := ⟨4, 4, 3⟩

/-- A normalized center-size box (first coordinate inside [0, 1]). -/
def nbox : Box4 := ⟨1/2, 1/2, 1/2, 1/2⟩

/-- An absolute-pixel box (first coordinate 120, outside [0, 1]). -/
def abox : Box4 := ⟨120, 50, 30, 40⟩

/-- A concrete point prompt. -/
def cPt : Point := (1, 1)

/-- On a nonempty boxes tensor whose first coordinate survives clipping, the
boxes branch assigns the transformed boxes. -/
theorem transformed_boxes_status_pos (o : SamOracle) (W H : Nat) (b : Box4)
    (bs : List Box4) (hc : max 0 (min 1 b.c0) = b.c0) :
    transformed_boxes_status o W H (some (b :: bs)) =
      .ok (some (some (o.applyBoxes (((b :: bs).map box_cxcywh_to_xyxy).map
        (fun x => scaleBox x (W : ℚ) (H : ℚ) (W : ℚ) (H : ℚ))) (W, H)))) := by
  simp only [transformed_boxes_status]
  rw [if_pos hc]

/-- On a nonempty boxes tensor whose first coordinate is changed by
clipping, the boxes branch leaves `transformed_boxes` unassigned. -/
theorem transformed_boxes_status_neg (o : SamOracle) (W H : Nat) (b : Box4)
    (bs : List Box4) (hc : ¬(max 0 (min 1 b.c0) = b.c0)) :
    transformed_boxes_status o W H (some (b :: bs)) = .ok none := by
  simp only [transformed_boxes_status]
  rw [if_neg hc]

/-- On a nonempty boxes tensor the boxes branch never raises. -/
theorem transformed_boxes_status_ok (o : SamOracle) (W H : Nat) (b : Box4)
    (bs : List Box4) :
    ∃ t, transformed_boxes_status o W H (some (b :: bs)) = .ok t := by
  by_cases hc : max 0 (min 1 b.c0) = b.c0
  · exact ⟨_, transformed_boxes_status_pos o W H b bs hc⟩
  · exact ⟨none, transformed_boxes_status_neg o W H b bs hc⟩

/-- C1: constructing a `GSamNetwork` with any valid SAM selector always fails
before any model is loaded: `__init__` assigns `self.device`, but the class
defines `device` as a getter-only property, so the assignment raises
`AttributeError` during construction, no checkpoint is ever loaded, and no
usable instance can be produced. -/
theorem C1_init_fails_before_load (SAM : String) (SAM_MODEL : Option String)
    (h : SAM ∈ SAM_NAMES_MODELS) :
    gsam_init SAM SAM_MODEL =
      ⟨.error (.attributeError "property device of GSamNetwork object has no setter"), []⟩ := by
  unfold gsam_init
  rw [if_neg (by simp [h])]
  rfl

/-- C1 witness: the valid selector "SAM1" with no sub-model name. -/
theorem C1_init_fails_before_load_witness :
    gsam_init "SAM1" none =
      ⟨.error (.attributeError "property device of GSamNetwork object has no setter"), []⟩ :=
  C1_init_fails_before_load "SAM1" none (List.Mem.head _)

/-- C6: prompt preparation fails with the pairing `ValueError` whenever
exactly one of point_coords and point_labels is provided, both in the
single-image path `__prep_prompts` (for every boxes argument that is absent
or nonempty — an empty boxes tensor fails earlier at `boxes[0]`) and,
unconditionally, in the batch path `predict_SAM1_batch`. -/
theorem C6_pairing_error :
    (∀ (o : SamOracle) (boxes : Option (List Box4)) (pc : Option (List Point))
        (pl : Option (List ℚ)) (dims : Nat × Nat),
      ((pc.isSome = true ∧ pl = none) ∨ (pl.isSome = true ∧ pc = none)) →
      (boxes = none ∨ ∃ b bs, boxes = some (b :: bs)) →
      ∃ m, prep_prompts o boxes pc pl dims = .error (.valueError m) ∧
        (m = pairMsgCoords ∨ m = pairMsgLabels))
  ∧ (∀ (images : List NpImage) (boxes : Option (List (Option (List Box4))))
        (pcs : Option (List (Option (List Point))))
        (pls : Option (List (Option (List ℚ)))),
      ((pcs.isSome = true ∧ pls = none) ∨ (pls.isSome = true ∧ pcs = none)) →
      ∃ m, predict_SAM1_batch images boxes pcs pls = .error (.valueError m) ∧
        (m = pairMsgCoords ∨ m = pairMsgLabels)) := by
  constructor
  · intro o boxes pc pl dims hone hwf
    rcases hwf with rfl | ⟨b, bs, rfl⟩
    · rcases hone with ⟨hs, rfl⟩ | ⟨hs, rfl⟩
      · rcases Option.isSome_iff_exists.mp hs with ⟨p, rfl⟩
        exact ⟨pairMsgCoords, rfl, Or.inl rfl⟩
      · rcases Option.isSome_iff_exists.mp hs with ⟨l, rfl⟩
        exact ⟨pairMsgLabels, rfl, Or.inr rfl⟩
    · obtain ⟨t, ht⟩ := transformed_boxes_status_ok o dims.1 dims.2 b bs
      rcases hone with ⟨hs, rfl⟩ | ⟨hs, rfl⟩
      · rcases Option.isSome_iff_exists.mp hs with ⟨p, rfl⟩
        refine ⟨pairMsgCoords, ?_, Or.inl rfl⟩
        simp [prep_prompts, ht]
      · rcases Option.isSome_iff_exists.mp hs with ⟨l, rfl⟩
        refine ⟨pairMsgLabels, ?_, Or.inr rfl⟩
        simp [prep_prompts, ht]
  · intro images boxes pcs pls hone
    rcases hone with ⟨hs, rfl⟩ | ⟨hs, rfl⟩
    · rcases Option.isSome_iff_exists.mp hs with ⟨p, rfl⟩
      exact ⟨pairMsgCoords, rfl, Or.inl rfl⟩
    · rcases Option.isSome_iff_exists.mp hs with ⟨l, rfl⟩
      exact ⟨pairMsgLabels, rfl, Or.inr rfl⟩

/-- C6 witness: point coordinates without labels, in both paths. -/
theorem C6_pairing_error_witness :
    (∃ m, prep_prompts samOracleId none (some [cPt]) none (2, 2) =
        .error (.valueError m) ∧ (m = pairMsgCoords ∨ m = pairMsgLabels))
  ∧ (∃ m, predict_SAM1_batch [img22] none (some [some [cPt]]) none =
        .error (.valueError m) ∧ (m = pairMsgCoords ∨ m = pairMsgLabels)) :=
  ⟨C6_pairing_error.1 samOracleId none (some [cPt]) none (2, 2)
      (Or.inl ⟨rfl, rfl⟩) (Or.inl rfl),
   C6_pairing_error.2 [img22] none (some [some [cPt]]) none (Or.inl ⟨rfl, rfl⟩)⟩

/-- C9: for every boxes input whose first coordinate lies outside [0, 1]
(the "already absolute" case of the clipping heuristic), `__prep_prompts`
never assigns `transformed_boxes` and fails with the unbound-local error at
its `return` instead of passing the absolute box through unconverted (stated
for point arguments that respect the pairing invariant; a violated pairing
fails earlier with the pairing error of C6). -/
theorem C9_unbound_transformed_boxes (o : SamOracle) (b : Box4) (bs : List Box4)
    (pc : Option (List Point)) (pl : Option (List ℚ)) (dims : Nat × Nat)
    (houtside : b.c0 < 0 ∨ 1 < b.c0)
    (hpair : pc.isSome = pl.isSome) :
    prep_prompts o (some (b :: bs)) pc pl dims =
      .error (.unboundLocalError "local variable transformed_boxes referenced before assignment") := by
  have hne : ¬(max 0 (min 1 b.c0) = b.c0) := by
    rcases houtside with hlt | hgt
    · rw [min_eq_right (by linarith), max_eq_left (by linarith)]
      intro hc
      linarith
    · rw [min_eq_left (by linarith), max_eq_right (by norm_num)]
      intro hc
      linarith
  have ht := transformed_boxes_status_neg o dims.1 dims.2 b bs hne
  cases pc with
  | none =>
    cases pl with
    | none => simp [prep_prompts, ht]
    | some l => simp at hpair
  | some p =>
    cases pl with
    | none => simp at hpair
    | some l => simp [prep_prompts, ht]

/-- C9 witness: a box whose first coordinate is the absolute pixel value 120,
with no point prompt. -/
theorem C9_unbound_transformed_boxes_witness :
    prep_prompts samOracleId (some [abox]) none none (4, 4) =
      .error (.unboundLocalError "local variable transformed_boxes referenced before assignment") :=
  C9_unbound_transformed_boxes samOracleId abox [] none none (4, 4)
    (Or.inr (by norm_num [abox])) rfl

/-- C10: although boxes, point_coords and point_labels are all optional,
`predict_SAM1` can only succeed when both a boxes prompt and a point prompt
are supplied: when either kind is absent, `__prep_prompts` returns `None`
for that side and the call fails with `AttributeError` when `.to(device)` is
evaluated on the `None` value, before the mask prediction of the segmenter runs
(stated for paired points and, when boxes are the supplied kind, a nonempty
normalized-looking boxes tensor, since other boxes fail earlier in
`__prep_prompts`). -/
theorem C10_none_to_failure (o : SamOracle) (image : NpImage)
    (boxes : Option (List Box4)) (pc : Option (List Point)) (pl : Option (List ℚ))
    (hpair : pc.isSome = pl.isSome)
    (hwf : boxes = none ∨ ∃ b bs, boxes = some (b :: bs) ∧ max 0 (min 1 b.c0) = b.c0)
    (habsent : boxes = none ∨ pc = none) :
    (predict_SAM1 o image boxes pc pl).result = .error (.attributeError noneToMsg)
  ∧ (predict_SAM1 o image boxes pc pl).predictInvoked = false := by
  rcases hwf with rfl | ⟨b, bs, rfl, hclip⟩
  · cases pc with
    | none =>
      cases pl with
      | none => exact ⟨rfl, rfl⟩
      | some l => simp at hpair
    | some p =>
      cases pl with
      | none => simp at hpair
      | some l => exact ⟨rfl, rfl⟩
  · rcases habsent with h | rfl
    · exact absurd h (by simp)
    · cases pl with
      | some l => simp at hpair
      | none =>
        have ht := transformed_boxes_status_pos o image.height image.width b bs hclip
        constructor <;>
          simp [predict_SAM1, prep_prompts, change_image_instance, ht]

/-- C10 witness: every prompt argument absent. -/
theorem C10_none_to_failure_witness :
    (predict_SAM1 samOracleId img22 none none none).result =
      .error (.attributeError noneToMsg)
  ∧ (predict_SAM1 samOracleId img22 none none none).predictInvoked = false :=
  C10_none_to_failure samOracleId img22 none none none rfl (Or.inl rfl) (Or.inl rfl)

/-- C2 counterexample: the claim says the image context is released before
`predict_SAM1` returns on every exit path, including when mask prediction
fails; but the source has no try/finally, so on a call whose external mask
prediction raises after `set_image`, the call exits by exception with the
context still held (`reset_image` on line 218 is never reached). -/
theorem C2_cex :
    (predict_SAM1 samOracleFail img22 (some [nbox]) (some [cPt]) (some [1])).ctxHeldAtExit = true
  ∧ (predict_SAM1 samOracleFail img22 (some [nbox]) (some [cPt]) (some [1])).result =
      .error (.runtimeError "mask prediction failed") := by
  have ht := transformed_boxes_status_pos samOracleFail 2 2 nbox [] (by norm_num [nbox])
  have hP : ∀ a c d, samOracleFail.predictTorch a c d =
      .error (.runtimeError "mask prediction failed") := fun _ _ _ => rfl
  constructor <;>
    simp [predict_SAM1, prep_prompts, change_image_instance, img22, ht, hP]

/-- C2 (amended): the image context is never acquired when prompt
preparation fails; no call returns successfully at all (line 219 raises
`NameError` on the unbound `postprocess_masks`); a call that survives
`predict_torch` releases the context at `reset_image` (line 218) before that
`NameError`, so on the mask post-processing exit the context is released;
but when the prompt tensor transfer or the mask prediction itself fails
after `set_image`, the call returns with the context still held. -/
theorem C2_context_release (o : SamOracle) (image : NpImage)
    (boxes : Option (List Box4)) (pc : Option (List Point)) (pl : Option (List ℚ)) :
    ((∃ e, prep_prompts o boxes pc pl (image.height, image.width) = .error e) →
        (predict_SAM1 o image boxes pc pl).ctxHeldAtExit = false)
  ∧ (∀ m, (predict_SAM1 o image boxes pc pl).result ≠ .ok m)
  ∧ (∀ tb tp l, prep_prompts o boxes pc pl (image.height, image.width) =
        .ok (some tb, some tp, some l) →
      ∀ ms, o.predictTorch tb tp l = .ok ms →
        (predict_SAM1 o image boxes pc pl).result = .error (.nameError postprocessMasksMsg)
        ∧ (predict_SAM1 o image boxes pc pl).ctxHeldAtExit = false
        ∧ (predict_SAM1 o image boxes pc pl).predictInvoked = true)
  ∧ (∀ tb tp l, prep_prompts o boxes pc pl (image.height, image.width) =
        .ok (some tb, some tp, some l) →
      ∀ e2, o.predictTorch tb tp l = .error e2 →
        (predict_SAM1 o image boxes pc pl).result = .error e2
        ∧ (predict_SAM1 o image boxes pc pl).ctxHeldAtExit = true)
  ∧ (∀ t, prep_prompts o boxes pc pl (image.height, image.width) = .ok t →
      (t.1 = none ∨ t.2.1 = none ∨ t.2.2 = none) →
        (predict_SAM1 o image boxes pc pl).result = .error (.attributeError noneToMsg)
        ∧ (predict_SAM1 o image boxes pc pl).ctxHeldAtExit = true) := by
  rcases hp : prep_prompts o boxes pc pl (image.height, image.width) with e0 | ⟨tb0, tp0, lbl0⟩
  · refine ⟨fun _ => ?_, fun m => ?_, fun tb tp l h => ?_, fun tb tp l h => ?_,
      fun t h => ?_⟩
    · simp [predict_SAM1, change_image_instance, hp]
    · simp [predict_SAM1, change_image_instance, hp]
    · exact absurd h (by simp)
    · exact absurd h (by simp)
    · exact absurd h (by simp)
  · refine ⟨fun he => ?_, fun m => ?_, fun tb tp l h ms hms => ?_,
      fun tb tp l h e2 he2 => ?_, fun t h hnone => ?_⟩
    · exfalso
      rcases he with ⟨e, he⟩
      exact Except.noConfusion he
    · rcases tp0 with _ | p
      · simp [predict_SAM1, change_image_instance, hp]
      · rcases lbl0 with _ | l0
        · simp [predict_SAM1, change_image_instance, hp]
        · rcases tb0 with _ | b2
          · simp [predict_SAM1, change_image_instance, hp]
          · rcases ho : o.predictTorch b2 p l0 with e2 | ms
            · simp [predict_SAM1, change_image_instance, hp, ho]
            · simp [predict_SAM1, change_image_instance, hp, ho]
    · simp only [Except.ok.injEq, Prod.mk.injEq] at h
      obtain ⟨h1, h2, h3⟩ := h
      subst h1
      subst h2
      subst h3
      refine ⟨?_, ?_, ?_⟩ <;> simp [predict_SAM1, change_image_instance, hp, hms]
    · simp only [Except.ok.injEq, Prod.mk.injEq] at h
      obtain ⟨h1, h2, h3⟩ := h
      subst h1
      subst h2
      subst h3
      refine ⟨?_, ?_⟩ <;> simp [predict_SAM1, change_image_instance, hp, he2]
    · rw [Except.ok.injEq] at h
      subst h
      rcases tp0 with _ | p
      · exact ⟨by simp [predict_SAM1, change_image_instance, hp],
          by simp [predict_SAM1, change_image_instance, hp]⟩
      · rcases lbl0 with _ | l0
        · exact ⟨by simp [predict_SAM1, change_image_instance, hp],
            by simp [predict_SAM1, change_image_instance, hp]⟩
        · rcases tb0 with _ | b2
          · exact ⟨by simp [predict_SAM1, change_image_instance, hp],
              by simp [predict_SAM1, change_image_instance, hp]⟩
          · exfalso
            rcases hnone with h1 | h1 | h1 <;> simp at h1

/-- C2 witness: a fully prompted call whose mask prediction succeeds reaches
the post-release `NameError`, exiting with the context released and the
prediction invoked. -/
theorem C2_context_release_witness :
    (predict_SAM1 samOracleId img22 (some [nbox]) (some [cPt]) (some [1])).result =
      .error (.nameError postprocessMasksMsg)
  ∧ (predict_SAM1 samOracleId img22 (some [nbox]) (some [cPt]) (some [1])).ctxHeldAtExit = false
  ∧ (predict_SAM1 samOracleId img22 (some [nbox]) (some [cPt]) (some [1])).predictInvoked = true :=
  (C2_context_release samOracleId img22 (some [nbox]) (some [cPt]) (some [1])).2.2.1
    (samOracleId.applyBoxes (([nbox].map box_cxcywh_to_xyxy).map
      (fun x => scaleBox x ((2 : Nat) : ℚ) ((2 : Nat) : ℚ) ((2 : Nat) : ℚ) ((2 : Nat) : ℚ))) (2, 2))
    (samOracleId.applyCoords [cPt] (2, 2)) [1]
    (by
      have ht := transformed_boxes_status_pos samOracleId 2 2 nbox [] (by norm_num [nbox])
      simp [prep_prompts, img22, ht])
    [[[[true, false], [false, true]]]] rfl

/-- C4: the claim describes the value returned by successful segment calls,
but `predict_SAM1` has no successful exit: line 219 names
`postprocess_masks`, which the module never imports (lines 397/400 import
only `process_masks`), so every call surviving `predict_torch` raises
`NameError` after `reset_image`, and the OR-aggregation and permutation of
lines 219-222 — the behavior the claim describes — are dead code.  The
theorem evaluates a fully prompted call with a succeeding mask prediction. -/
theorem C4_segment_never_returns :
    (predict_SAM1 samOracleId img22 (some [nbox]) (some [cPt]) (some [1])).result =
      .error (.nameError postprocessMasksMsg) := by
  have ht := transformed_boxes_status_pos samOracleId 2 2 nbox [] (by norm_num [nbox])
  have hP : ∀ a c d, samOracleId.predictTorch a c d =
      .ok [[[[true, false], [false, true]]]] := fun _ _ _ => rfl
  simp [predict_SAM1, prep_prompts, change_image_instance, img22, ht, hP]

/-- C3: the claim states that `predict_dino` with normalize=true converts
the detector boxes to absolute pixel corners by scaling the corner-converted
coordinates by (w, h, w, h) — x coordinates by the image width — for a
height × width × channel image.  Two divergences: (1) line 153 binds
`W, H = image_array.shape[:2]`, so `W` receives the height; for a 2 × 3
image (height 2, width 3) and detector box (1/2, 1/2, 1/2, 1/2), the corner
box (1/4, 1/4, 3/4, 3/4) is scaled by (2, 3, 2, 3) to (1/2, 3/4, 3/2, 9/4),
whereas the claimed (3, 2, 3, 2) scaling would give (3/4, 1/2, 9/4, 3/2);
(2) the call never returns those boxes anyway: line 156 names
`postprocess_box`, which the module never imports, so `predict_dino` always
raises `NameError`. -/
theorem C3_x_scaled_by_height :
    normalize_boxes img23 [⟨1/2, 1/2, 1/2, 1/2⟩] = [⟨1/2, 3/4, 3/2, 9/4⟩]
  ∧ Box4.mk (1/2) (3/4) (3/2) (9/4) ≠ Box4.mk (3/4) (1/2) (9/4) (3/2)
  ∧ predict_dino dinoOracleOne img23 "dog" (3/10) (1/4) true =
      .error (.nameError postprocessBoxMsg) := by
  refine ⟨?_, ?_, rfl⟩
  · norm_num [normalize_boxes, img23, box_cxcywh_to_xyxy, scaleBox]
  · intro h
    rw [Box4.mk.injEq] at h
    norm_num at h

/-- C5: the claim states `predict_batch` with a mode other than
"box_predict" fails with `UnsupportedModeError`.  The real trace never
reaches the mode check on line 314: the `predict_dino` call on line 300
raises `NameError` at its line 156 (`postprocess_box` unbound), which
propagates out of `predict_batch` for every mode value, so neither an
`UnsupportedModeError` (a type that exists nowhere in the source) nor the
unbound-`masks` return is ever produced. -/
theorem C5_mode_never_reached :
    ∀ mode_predict : String,
      predict_batch dinoOracleOne img22 "dog" (3/10) (2/5) (1/4) mode_predict =
        .error (.nameError postprocessBoxMsg) :=
  fun _ => rfl

/-- C7: `predict_SAM1_batch` does fail with the length-mismatch `ValueError`
when a provided boxes list has length different from the number of images;
but it never "applies segment to each image in order" on a valid nonempty
batch: its `process_image` calls `__prep_prompts` with three arguments
(omitting the required `dims`), so the first iteration raises `TypeError`.  -/
theorem C7_batch_arity :
    predict_SAM1_batch [img44] (some [some [nbox], some [nbox]]) none none =
      .error (.valueError lenMsg)
  ∧ predict_SAM1_batch [img44] none none none =
      .error (.typeError prepDimsMsg) := ⟨rfl, rfl⟩

/-- C8 counterexample: the claim says `predict_dino_batch` on an empty image
sequence returns three empty sequences; on the empty sequence the source
executes `boxes, logits, phrases = zip(*[])`, and unpacking the empty zip
into three names raises `ValueError`, so no triple is returned. -/
theorem C8_cex :
    predict_dino_batch dinoOracleOne [] "dog" (3/10) (1/4) false =
      .error (.valueError "not enough values to unpack, expected 3, got 0")
  ∧ (Except.error (PyError.valueError "not enough values to unpack, expected 3, got 0") :
      Except PyError (List (List Box4) × List (List ℚ) × List (List String))) ≠
      .ok ([], [], []) := by
  refine ⟨rfl, ?_⟩
  intro h
  exact Except.noConfusion h

/-- C8 (amended): `predict_dino_batch` applied to an empty image sequence
raises the tuple-unpacking `ValueError` (from `zip(*results)` with no
results) rather than returning three empty sequences. -/
theorem C8_empty_unpack (dino : DinoOracle)
    (text_prompt : String) (box_threshold text_threshold : ℚ) (normalize : Bool) :
    predict_dino_batch dino [] text_prompt box_threshold
        text_threshold normalize =
      .error (.valueError "not enough values to unpack, expected 3, got 0") := rfl
